import Mathlib

/-!
Shallow embedding of the private-assistant climate skill
(`src/private_assistant_climate_skill/models.py` and
`src/private_assistant_climate_skill/climate_skill.py`).

Pure data and control flow are translated directly; the effectful parts
(response emission, MQTT publishing, logging) are modelled as an explicit
trace of `Effect` values produced by each handler, in the order the source
performs (or spawns) them.  The external jinja2 engine is modelled only as
far as the source exercises it: response templates become an opaque render
function carried by the skill state, and per-device payload templates are
rendered by substituting the single `temperature` placeholder, which is the
only construct the default payload template uses.  Floating point fields
that the source merely logs (entity and intent confidences) are omitted.
-/

namespace ClimateSkill

/-- Intent type tags used by the router (`IntentType` in commons).  The
source only distinguishes `DEVICE_SET`, `SYSTEM_HELP`, and "anything else";
`DEVICE_ON` stands in for an arbitrary unsupported intent type (it is the
one the repository tests use for that purpose). -/
inductive IntentType
  | DEVICE_SET
  | SYSTEM_HELP
  | DEVICE_ON
  deriving DecidableEq

/-- Normalized value of an extracted entity: room entities carry strings,
number entities carry numeric values (`climate_skill.py` casts the latter
with `int(...)`). -/
inductive EntityValue
  | str (s : String)
  | num (n : Int)
  deriving DecidableEq

/-- Python `room.normalized_value` used as a room name (a string in every
source usage). -/
def EntityValue.asString : EntityValue → String
  | EntityValue.str s => s
  | EntityValue.num n => toString n

/-- Python `int(entity.normalized_value)` for number entities. -/
def EntityValue.asInt : EntityValue → Int
  | EntityValue.str s => (s.toInt?).getD 0
  | EntityValue.num n => n

/-- An extracted entity (`Entity` in commons): raw text span, normalized
value and free-form metadata (unit, device_type, ...).  Confidence is a
float the skill never reads, so it is omitted. -/
structure Entity where
  raw_text : String
  normalized_value : EntityValue
  metadata : List (String × String) := []
  deriving DecidableEq

/-- A classified intent (`ClassifiedIntent` in commons): an intent type tag
and a mapping from entity-category name to the list of extracted entities.
The confidence float is only logged by the skill and is omitted. -/
structure ClassifiedIntent where
  intent_type : IntentType
  entities : List (String × List Entity)
  raw_text : String := ""
  deriving DecidableEq

/-- Python `classified_intent.entities.get(key, [])`. -/
def ClassifiedIntent.getEntities (ci : ClassifiedIntent) (key : String) : List Entity :=
  (ci.entities.lookup key).getD []

/-- Client context of a request (`ClientRequest` in commons): the
originating room and the reply destination. -/
structure ClientRequest where
  text : String := ""
  room : String
  output_topic : String := ""
  deriving DecidableEq

/-- An inbound request: classified intent plus client context. -/
structure IntentRequest where
  classified_intent : ClassifiedIntent
  client_request : ClientRequest
  deriving DecidableEq

/-- A room record of the global device registry. -/
structure Room where
  name : String
  deriving DecidableEq

/-- A device record of the global registry (`GlobalDevice` in commons):
name, optional room, optional attribute mapping. -/
structure GlobalDevice where
  name : String
  room : Option Room := none
  device_attributes : Option (List (String × String)) := none
  deriving DecidableEq

/-- Python whitespace as matched by `\s` (ASCII range) and stripped by
`str.strip()`: space, tab, newline, carriage return, vertical tab, form
feed.  The source regex also matches further unicode whitespace; no claim
depends on those code points. -/
def isPythonSpace (c : Char) : Bool :=
  c = ' ' || c = '\t' || c = '\n' || c = '\r' || c = '\x0b' || c = '\x0c'

/-- Character class of `MQTT_TOPIC_REGEX = re.compile(r"[\$#\+\s\0-\31]+")`
in `models.py`: dollar, hash, plus, whitespace, and the octal code-point
range `\0`-`\31` (0 to 25 decimal). -/
def isInvalidTopicChar (c : Char) : Bool :=
  c = '$' || c = '#' || c = '+' || isPythonSpace c || c.toNat ≤ 25

/-- Maximum topic length from `models.py` (`MAX_TOPIC_LENGTH = 128`). -/
def MAX_TOPIC_LENGTH : Nat := 128

/-- Python `value.strip()`: drop leading and trailing whitespace. -/
def pyStrip (s : String) : String :=
  String.mk (((s.data.dropWhile isPythonSpace).reverse.dropWhile isPythonSpace).reverse)

/-- The `validate_topic` field validator of `ClimateSkillDevice` in
`models.py`: reject topics containing a character of the invalid class
(`findall` non-empty), then reject topics longer than 128 code points,
otherwise store the stripped topic. -/
def validate_topic (value : String) : Except String String :=
  if value.data.any isInvalidTopicChar then
    Except.error "Topic must not contain invalid characters."
  else if value.length > MAX_TOPIC_LENGTH then
    Except.error "Topic length exceeds maximum allowed limit (128 characters)."
  else
    Except.ok (pyStrip value)

/-- Default per-device payload template from `models.py`
(the braces of the JSON text and of the jinja placeholder are written with
hex escapes): `\x7b"occupied_heating_setpoint": \x7b\x7b temperature \x7d\x7d\x7d`. -/
def DEFAULT_PAYLOAD_SET_TEMPLATE : String :=
  "\x7b\"occupied_heating_setpoint\": \x7b\x7b temperature \x7d\x7d\x7d"

/-- Skill-side device representation (`ClimateSkillDevice` in
`models.py`).  The pydantic field `alias` is a Lean keyword, hence the
trailing underscore. -/
structure ClimateSkillDevice where
  topic : String
  alias_ : String
  room : String
  payload_set_template : String := DEFAULT_PAYLOAD_SET_TEMPLATE
  deriving DecidableEq

/-- Pydantic construction of a `ClimateSkillDevice`: the `validate_topic`
field validator runs on the topic; a validation error makes construction
fail. -/
def ClimateSkillDevice.make (topic alias_ room payload_set_template : String) :
    Except String ClimateSkillDevice :=
  match validate_topic topic with
  | Except.error e => Except.error e
  | Except.ok t =>
    Except.ok { topic := t, alias_ := alias_, room := room,
                payload_set_template := payload_set_template }

/-- `ClimateSkillDevice.from_global_device` in `models.py`: a missing or
empty (falsy) `topic` attribute is a `ValueError`; `payload_set_template`
defaults when absent; construction then runs the topic validator. -/
def ClimateSkillDevice.from_global_device (g : GlobalDevice) : Except String ClimateSkillDevice :=
  let attrs := g.device_attributes.getD []
  let topic := (attrs.lookup "topic").getD ""
  if topic = "" then
    Except.error ("Device " ++ g.name ++ " missing required topic in device_attributes")
  else
    ClimateSkillDevice.make topic g.name
      (match g.room with
       | some r => r.name
       | none => "")
      ((attrs.lookup "payload_set_template").getD DEFAULT_PAYLOAD_SET_TEMPLATE)

/-- `ClimateSkill.get_devices`: filter the global registry by room
membership, converting each record and skipping (with a logged warning)
records whose conversion raises. -/
def get_devices (global_devices : List GlobalDevice) (rooms : List String) :
    List ClimateSkillDevice :=
  global_devices.filterMap fun g =>
    match g.room with
    | none => none
    | some r =>
      if rooms.contains r.name then (ClimateSkillDevice.from_global_device g).toOption
      else none

/-- Resolved action parameters (`Parameters` in `climate_skill.py`):
temperature sentinel 0, target devices, target rooms. -/
structure Parameters where
  temperature : Int := 0
  targets : List ClimateSkillDevice := []
  rooms : List String := []
  deriving DecidableEq

/-- `ClimateSkill.find_parameters`: rooms from the "rooms" entity category
with unconditional fallback to the current room, devices from the registry
for those rooms, and, for `DEVICE_SET`, the first "numbers" entity as the
integer setpoint (sentinel 0 when absent). -/
def find_parameters (global_devices : List GlobalDevice) (intent_type : IntentType)
    (classified_intent : ClassifiedIntent) (current_room : String) : Parameters :=
  let room_entities := classified_intent.getEntities "rooms"
  let rooms :=
    if room_entities.isEmpty then [current_room]
    else room_entities.map fun r => r.normalized_value.asString
  let devices := get_devices global_devices rooms
  if intent_type = IntentType.DEVICE_SET then
    let number_entities := classified_intent.getEntities "numbers"
    let temperature : Int :=
      match number_entities with
      | [] => 0
      | e :: _ => e.normalized_value.asInt
    { temperature := temperature, targets := devices, rooms := rooms }
  else
    { temperature := 0, targets := [], rooms := rooms }

/-- Observable effects of request handling: the natural-language reply, an
MQTT publish call (topic, payload, qos), and warning or error log lines. -/
inductive Effect
  | response (text : String)
  | publish (topic : String) (payload : String) (qos : Nat)
  | logWarning (msg : String)
  | logError (msg : String)
  deriving DecidableEq

/-- Selects the publish effects of a trace. -/
def Effect.isPublish : Effect → Bool
  | Effect.publish _ _ _ => true
  | _ => false

/-- Selects the response effects of a trace. -/
def Effect.isResponse : Effect → Bool
  | Effect.response _ => true
  | _ => false

/-- Publish calls performed in a trace. -/
def publishes (effects : List Effect) : List Effect :=
  effects.filter Effect.isPublish

/-- Responses emitted in a trace. -/
def responses (effects : List Effect) : List Effect :=
  effects.filter Effect.isResponse

/-- The jinja placeholder `\x7b\x7b temperature \x7d\x7d` appearing in
payload templates. -/
def TEMPERATURE_VAR : List Char := "\x7b\x7b temperature \x7d\x7d".data

/-- Replace every occurrence of the temperature placeholder, left to right,
fuelled by the remaining length (structural recursion so that concrete
payloads evaluate in the kernel). -/
def replaceTemperatureAux (repl : List Char) : Nat → List Char → List Char
  | _, [] => []
  | 0, cs => cs
  | fuel+1, c :: rest =>
    if TEMPERATURE_VAR.isPrefixOf (c :: rest) then
      repl ++ replaceTemperatureAux repl fuel ((c :: rest).drop TEMPERATURE_VAR.length)
    else
      c :: replaceTemperatureAux repl fuel rest

/-- `jinja2.Template(device.payload_set_template).render(temperature=...)`
as exercised by the source: substitute the single `temperature` placeholder
into the template text. -/
def renderPayload (template : String) (temperature : Int) : String :=
  String.mk (replaceTemperatureAux (toString temperature).data template.data.length template.data)

/-- Skill state relevant to request processing: the cached global device
registry, the preloaded template table, and the external jinja2 renderer
for response templates (whose text lives outside the repository). -/
structure Skill where
  global_devices : List GlobalDevice
  intent_to_template : List (IntentType × String)
  renderTemplate : String → IntentType → Parameters → String

/-- Required templates of `_load_templates` in `climate_skill.py`. -/
def template_mappings : List (IntentType × String) :=
  [(IntentType.SYSTEM_HELP, "help.j2"), (IntentType.DEVICE_SET, "set_temperature.j2")]

/-- `ClimateSkill._load_templates`, run during construction: look up every
required template in the environment, collect the failures, and raise
(construction fails) when any required template is missing; otherwise the
intent-to-template table is fully populated. -/
def load_templates (env : String → Option String) :
    Except String (List (IntentType × String)) :=
  let results := template_mappings.map fun p => (p.1, p.2, env p.2)
  let failed := results.filterMap fun p => if p.2.2.isNone then some p.2.1 else none
  if failed.isEmpty then
    Except.ok (results.filterMap fun p => p.2.2.map fun t => (p.1, t))
  else
    Except.error ("Critical templates failed to load: " ++ String.intercalate ", " failed)

/-- `ClimateSkill._render_response`: template lookup by intent type, render
on hit, generic apology on miss. -/
def render_response (skill : Skill) (intent_type : IntentType) (parameters : Parameters) :
    String :=
  match skill.intent_to_template.lookup intent_type with
  | some t => skill.renderTemplate t intent_type parameters
  | none => "Sorry, I couldn\x27t process your request."

/-- Log line of a caught publish exception (topic and error context). -/
def publish_failure_msg (topic err : String) : String :=
  "Failed to send MQTT message to topic " ++ topic ++ ": " ++ err

/-- Loop body of `_send_mqtt_commands` for `DEVICE_SET`: render the device
payload, attempt the publish at qos 1, and on a raised publish exception
(supplied by the `publishFailure` oracle) catch it and log topic and error.
-/
def device_set_effects (publishFailure : String → Option String) (temperature : Int)
    (device : ClimateSkillDevice) : List Effect :=
  let payload := renderPayload device.payload_set_template temperature
  Effect.publish device.topic payload 1 ::
    (match publishFailure device.topic with
     | none => []
     | some e => [Effect.logError (publish_failure_msg device.topic e)])

/-- Loop body of `_send_mqtt_commands` for one device: unknown intent types
log an error and continue to the next device. -/
def per_device_effects (publishFailure : String → Option String) (intent_type : IntentType)
    (temperature : Int) (device : ClimateSkillDevice) : List Effect :=
  if intent_type = IntentType.DEVICE_SET then
    device_set_effects publishFailure temperature device
  else
    [Effect.logError "Unknown intent type for MQTT command"]

/-- `ClimateSkill._send_mqtt_commands`: logged no-op on an empty target
list, otherwise one independent publish attempt per target device. -/
def send_mqtt_commands (publishFailure : String → Option String) (intent_type : IntentType)
    (parameters : Parameters) : List Effect :=
  if parameters.targets.isEmpty then
    [Effect.logWarning "No target devices to send MQTT commands to"]
  else
    parameters.targets.flatMap (per_device_effects publishFailure intent_type parameters.temperature)

/-- `ClimateSkill._handle_device_set`: resolve parameters, answer
"couldn\x27t find devices" when no targets, "please specify" when the
setpoint is still the sentinel, otherwise emit the rendered confirmation
and the device dispatch (two spawned tasks, traced in spawn order). -/
def handle_device_set (skill : Skill) (publishFailure : String → Option String)
    (intent_request : IntentRequest) : List Effect :=
  let parameters :=
    find_parameters skill.global_devices IntentType.DEVICE_SET
      intent_request.classified_intent intent_request.client_request.room
  if parameters.targets.isEmpty then
    [Effect.response "I couldn\x27t find any climate devices in that room."]
  else if parameters.temperature = 0 then
    [Effect.response "Please specify a temperature to set."]
  else
    Effect.response (render_response skill IntentType.DEVICE_SET parameters) ::
      send_mqtt_commands publishFailure IntentType.DEVICE_SET parameters

/-- `ClimateSkill._handle_system_help`: render the help template with the
current room as context; no dispatch. -/
def handle_system_help (skill : Skill) (intent_request : IntentRequest) : List Effect :=
  let parameters : Parameters := { rooms := [intent_request.client_request.room] }
  [Effect.response (render_response skill IntentType.SYSTEM_HELP parameters)]

/-- `ClimateSkill.process_request`: route by intent type; unsupported
intents log a warning and answer generically. -/
def process_request (skill : Skill) (publishFailure : String → Option String)
    (intent_request : IntentRequest) : List Effect :=
  let intent_type := intent_request.classified_intent.intent_type
  if intent_type = IntentType.DEVICE_SET then
    handle_device_set skill publishFailure intent_request
  else if intent_type = IntentType.SYSTEM_HELP then
    handle_system_help skill intent_request
  else
    [Effect.logWarning "Unsupported intent type",
     Effect.response "I\x27m not sure how to handle that request."]

/-! Helper lemmas shared by the claim theorems. -/

/-- A non-nil list is not `isEmpty`. -/
theorem isEmpty_false_of_ne_nil {α : Type} {l : List α} (h : l ≠ []) : l.isEmpty = false := by
  cases l with
  | nil => exact absurd rfl h
  | cons a t => rfl

/-- The rooms component of `find_parameters` is the room entities with
unconditional fallback to the current room, for every intent type. -/
theorem find_parameters_rooms_eq (gd : List GlobalDevice) (it : IntentType)
    (ci : ClassifiedIntent) (cr : String) :
    (find_parameters gd it ci cr).rooms =
      if (ci.getEntities "rooms").isEmpty then [cr]
      else (ci.getEntities "rooms").map fun r => r.normalized_value.asString := by
  by_cases h : it = IntentType.DEVICE_SET
  · subst h; rfl
  · simp [find_parameters, h]

/-- For a `DEVICE_SET` intent the targets component of `find_parameters`
is exactly the registry lookup for the resolved rooms. -/
theorem find_parameters_targets_eq (gd : List GlobalDevice) (ci : ClassifiedIntent)
    (cr : String) :
    (find_parameters gd IntentType.DEVICE_SET ci cr).targets =
      get_devices gd (find_parameters gd IntentType.DEVICE_SET ci cr).rooms := rfl

/-- With no "numbers" entities the resolved setpoint stays at the
sentinel 0. -/
theorem find_parameters_temperature_of_no_numbers (gd : List GlobalDevice)
    (ci : ClassifiedIntent) (cr : String) (h : ci.getEntities "numbers" = []) :
    (find_parameters gd IntentType.DEVICE_SET ci cr).temperature = 0 := by
  simp [find_parameters, h]

/-- Publish effects of the dispatch loop body over a device list: one
publish per device, in order, regardless of per-device failures. -/
theorem publishes_per_device (pf : String → Option String) (temp : Int)
    (l : List ClimateSkillDevice) :
    publishes (l.flatMap (per_device_effects pf IntentType.DEVICE_SET temp)) =
      l.map fun d => Effect.publish d.topic (renderPayload d.payload_set_template temp) 1 := by
  induction l with
  | nil => rfl
  | cons d rest ih =>
    cases h : pf d.topic <;>
      simp [publishes, per_device_effects, device_set_effects, h, Effect.isPublish,
        List.filter_append] at ih ⊢ <;>
      exact ih

/-- Publish effects of `_send_mqtt_commands` for `DEVICE_SET`: one publish
per target device, in target order, for every failure oracle. -/
theorem send_mqtt_publishes (pf : String → Option String) (ps : Parameters) :
    publishes (send_mqtt_commands pf IntentType.DEVICE_SET ps) =
      ps.targets.map fun d =>
        Effect.publish d.topic (renderPayload d.payload_set_template ps.temperature) 1 := by
  cases h : ps.targets with
  | nil => simp [send_mqtt_commands, h, publishes, Effect.isPublish]
  | cons a l =>
    simp only [send_mqtt_commands, h, List.isEmpty_cons, Bool.false_eq_true, if_false]
    exact publishes_per_device pf ps.temperature (a :: l)

/-! Claim theorems. -/

/-- C3: for every `DEVICE_SET` request whose resolved rooms match zero
devices in the directory, the router emits exactly the
"I couldn\x27t find any climate devices in that room." response, performs
zero publishes, and dispatches nothing. -/
theorem c3_no_matching_devices (skill : Skill) (pf : String → Option String)
    (req : IntentRequest)
    (hIntent : req.classified_intent.intent_type = IntentType.DEVICE_SET)
    (hNoDev : get_devices skill.global_devices
        (find_parameters skill.global_devices IntentType.DEVICE_SET req.classified_intent
          req.client_request.room).rooms = []) :
    process_request skill pf req =
      [Effect.response "I couldn\x27t find any climate devices in that room."] ∧
    publishes (process_request skill pf req) = [] := by
  have hT : (find_parameters skill.global_devices IntentType.DEVICE_SET req.classified_intent
      req.client_request.room).targets.isEmpty = true := by
    rw [find_parameters_targets_eq, hNoDev]; rfl
  have hProc : process_request skill pf req =
      [Effect.response "I couldn\x27t find any climate devices in that room."] := by
    simp [process_request, hIntent, handle_device_set, hT]
  exact ⟨hProc, by rw [hProc]; rfl⟩

/-- Concrete request used to witness C3: a `DEVICE_SET` intent with a
setpoint of 21, handled against an empty device directory. -/
def c3w_request : IntentRequest :=
  { classified_intent :=
      { intent_type := IntentType.DEVICE_SET,
        entities := [("numbers", [{ raw_text := "21", normalized_value := EntityValue.num 21 }])],
        raw_text := "set temperature to 21 degrees" },
    client_request := { room := "garage" } }

/-- Skill state used to witness C3: empty device directory. -/
def c3w_skill : Skill :=
  { global_devices := [], intent_to_template := template_mappings,
    renderTemplate := fun _ _ _ => "Temperature set" }

/-- Witness for C3 at a concrete request against an empty directory. -/
theorem c3_no_matching_devices_witness :
    process_request c3w_skill (fun _ => none) c3w_request =
      [Effect.response "I couldn\x27t find any climate devices in that room."] ∧
    publishes (process_request c3w_skill (fun _ => none) c3w_request) = [] :=
  c3_no_matching_devices c3w_skill (fun _ => none) c3w_request rfl rfl

/-- C4: a `DEVICE_SET` dispatch with resolved temperature 22 and exactly
one target device with topic `T` and the default payload template
publishes exactly once, to `T`, with payload
`\x7b"occupied_heating_setpoint": 22\x7d`, at qos 1, for every failure
oracle. -/
theorem c4_single_device_dispatch (T a r : String) (rooms : List String)
    (pf : String → Option String) :
    publishes (send_mqtt_commands pf IntentType.DEVICE_SET
      { temperature := 22,
        targets := [{ topic := T, alias_ := a, room := r,
                      payload_set_template := DEFAULT_PAYLOAD_SET_TEMPLATE }],
        rooms := rooms }) =
      [Effect.publish T "\x7b\"occupied_heating_setpoint\": 22\x7d" 1] := by
  rw [send_mqtt_publishes]
  rfl

/-- C6: with no room entities the resolved target rooms are exactly the
singleton current room (the unconditional defaulting rule), and with room
entities present they are exactly the entities normalized values, for
every intent type. -/
theorem c6_room_resolution (gd : List GlobalDevice) (it : IntentType)
    (ci : ClassifiedIntent) (cr : String) :
    (ci.getEntities "rooms" = [] → (find_parameters gd it ci cr).rooms = [cr]) ∧
    (ci.getEntities "rooms" ≠ [] →
      (find_parameters gd it ci cr).rooms =
        (ci.getEntities "rooms").map fun r => r.normalized_value.asString) := by
  constructor
  · intro h
    rw [find_parameters_rooms_eq, h]
    rfl
  · intro h
    rw [find_parameters_rooms_eq, isEmpty_false_of_ne_nil h]
    rfl

/-- Intent without room entities, for the C6 witness. -/
def c6w_noroom : ClassifiedIntent :=
  { intent_type := IntentType.DEVICE_SET,
    entities := [("numbers", [{ raw_text := "19", normalized_value := EntityValue.num 19 }])],
    raw_text := "set temperature to 19 degrees" }

/-- Intent with two room entities, for the C6 witness. -/
def c6w_rooms : ClassifiedIntent :=
  { intent_type := IntentType.DEVICE_SET,
    entities := [("rooms", [{ raw_text := "study", normalized_value := EntityValue.str "study" },
                            { raw_text := "office", normalized_value := EntityValue.str "office" }])],
    raw_text := "set temperature in study and office" }

/-- Witness for C6: current-room fallback on a room-less intent and exact
normalized rooms on an intent naming two rooms. -/
theorem c6_room_resolution_witness :
    (find_parameters [] IntentType.DEVICE_SET c6w_noroom "workshop").rooms = ["workshop"] ∧
    (find_parameters [] IntentType.DEVICE_SET c6w_rooms "workshop").rooms =
      ["study", "office"] :=
  ⟨(c6_room_resolution [] IntentType.DEVICE_SET c6w_noroom "workshop").1 rfl,
   (c6_room_resolution [] IntentType.DEVICE_SET c6w_rooms "workshop").2 (by decide)⟩

/-- C9: resolving the same classified intent twice against an unchanged
directory snapshot yields identical parameters: same rooms, same targets
in the same order, same temperature. -/
theorem c9_resolution_idempotent (gd : List GlobalDevice) (it : IntentType)
    (ci : ClassifiedIntent) (cr : String) (p1 p2 : Parameters)
    (h1 : p1 = find_parameters gd it ci cr) (h2 : p2 = find_parameters gd it ci cr) :
    p1.rooms = p2.rooms ∧ p1.targets = p2.targets ∧ p1.temperature = p2.temperature := by
  subst h1
  subst h2
  exact ⟨rfl, rfl, rfl⟩

/-- Witness for C9 at a concrete intent and snapshot. -/
theorem c9_resolution_idempotent_witness :
    (find_parameters [] IntentType.DEVICE_SET c6w_noroom "study").rooms =
      (find_parameters [] IntentType.DEVICE_SET c6w_noroom "study").rooms ∧
    (find_parameters [] IntentType.DEVICE_SET c6w_noroom "study").targets =
      (find_parameters [] IntentType.DEVICE_SET c6w_noroom "study").targets ∧
    (find_parameters [] IntentType.DEVICE_SET c6w_noroom "study").temperature =
      (find_parameters [] IntentType.DEVICE_SET c6w_noroom "study").temperature :=
  c9_resolution_idempotent [] IntentType.DEVICE_SET c6w_noroom "study" _ _ rfl rfl

/-- Thermostat registry record in the study, used for C1. -/
def c1_device : GlobalDevice :=
  { name := "main", room := some { name := "study" },
    device_attributes := some
      [("topic", "zigbee2mqtt/study/thermostat/main/set"),
       ("payload_set_template", DEFAULT_PAYLOAD_SET_TEMPLATE)] }

/-- Skill state used for C1: one thermostat in the study. -/
def c1_skill : Skill :=
  { global_devices := [c1_device], intent_to_template := template_mappings,
    renderTemplate := fun _ _ _ => "Temperature set" }

/-- Request used for C1: a `DEVICE_SET` intent whose only entity signal is
a number entity carrying unit metadata "brightness" and no device-type
entity. -/
def c1_request : IntentRequest :=
  { classified_intent :=
      { intent_type := IntentType.DEVICE_SET,
        entities := [("numbers",
          [{ raw_text := "77", normalized_value := EntityValue.num 77,
             metadata := [("unit", "brightness")] }])],
        raw_text := "set brightness to 77 percent" },
    client_request := { room := "study", output_topic := "assistant/study/output" } }

/-- C1 (code evaluation): `process_request` implements no climate-relevance
filter — on a `DEVICE_SET` intent whose only entity is a number with unit
metadata "brightness" it still emits a confirmation response and publishes
the brightness value as a temperature setpoint, instead of staying silent
as the specification and the repository tests require. -/
theorem c1_no_filter_in_code :
    process_request c1_skill (fun _ => none) c1_request =
      [Effect.response "Temperature set",
       Effect.publish "zigbee2mqtt/study/thermostat/main/set"
         "\x7b\"occupied_heating_setpoint\": 77\x7d" 1] := by
  rfl

/-- Request used for C2: a `DEVICE_SET` intent with no number entity. -/
def c2_request : IntentRequest :=
  { classified_intent :=
      { intent_type := IntentType.DEVICE_SET, entities := [],
        raw_text := "set the temperature" },
    client_request := { room := "garage" } }

/-- Skill state used for the C2 counterexample: empty device directory. -/
def c2_skill : Skill :=
  { global_devices := [], intent_to_template := template_mappings,
    renderTemplate := fun _ _ _ => "Temperature set" }

/-- C2 counterexample: on a `DEVICE_SET` request with no number entity but
zero matching devices, the resolved temperature is the sentinel 0, yet the
router emits the couldn\x27t-find-devices response, not the
please-specify-a-temperature response the claim asserts (the no-devices
check precedes the missing-setpoint check). -/
theorem c2_counterexample :
    (find_parameters c2_skill.global_devices IntentType.DEVICE_SET
      c2_request.classified_intent c2_request.client_request.room).temperature = 0 ∧
    process_request c2_skill (fun _ => none) c2_request =
      [Effect.response "I couldn\x27t find any climate devices in that room."] ∧
    Effect.response "Please specify a temperature to set." ∉
      process_request c2_skill (fun _ => none) c2_request := by
  refine ⟨rfl, rfl, ?_⟩
  decide

/-- C2 (amended): for every `DEVICE_SET` request with no "numbers" entity
whose resolved rooms match at least one device, the resolved temperature
is the sentinel 0 and the router emits exactly the
"Please specify a temperature to set." response with no dispatch. -/
theorem c2_missing_temperature (skill : Skill) (pf : String → Option String)
    (req : IntentRequest)
    (hIntent : req.classified_intent.intent_type = IntentType.DEVICE_SET)
    (hNoNum : req.classified_intent.getEntities "numbers" = [])
    (hTargets : (find_parameters skill.global_devices IntentType.DEVICE_SET
        req.classified_intent req.client_request.room).targets ≠ []) :
    (find_parameters skill.global_devices IntentType.DEVICE_SET req.classified_intent
      req.client_request.room).temperature = 0 ∧
    process_request skill pf req = [Effect.response "Please specify a temperature to set."] ∧
    publishes (process_request skill pf req) = [] := by
  have hTemp := find_parameters_temperature_of_no_numbers skill.global_devices
    req.classified_intent req.client_request.room hNoNum
  have hT := isEmpty_false_of_ne_nil hTargets
  have hProc : process_request skill pf req =
      [Effect.response "Please specify a temperature to set."] := by
    simp [process_request, hIntent, handle_device_set, hT, hTemp]
  exact ⟨hTemp, hProc, by rw [hProc]; rfl⟩

/-- Thermostat registry record in the garage, used to witness C2. -/
def c2w_device : GlobalDevice :=
  { name := "main", room := some { name := "garage" },
    device_attributes := some [("topic", "zigbee2mqtt/garage/thermostat/main/set")] }

/-- Skill state used to witness C2: one thermostat in the garage. -/
def c2w_skill : Skill :=
  { global_devices := [c2w_device], intent_to_template := template_mappings,
    renderTemplate := fun _ _ _ => "Temperature set" }

/-- Witness for the amended C2 at a concrete request with a matching
device. -/
theorem c2_missing_temperature_witness :
    (find_parameters c2w_skill.global_devices IntentType.DEVICE_SET
      c2_request.classified_intent c2_request.client_request.room).temperature = 0 ∧
    process_request c2w_skill (fun _ => none) c2_request =
      [Effect.response "Please specify a temperature to set."] ∧
    publishes (process_request c2w_skill (fun _ => none) c2_request) = [] :=
  c2_missing_temperature c2w_skill (fun _ => none) c2_request rfl rfl (by decide)

/-- C5: every topic containing NUL, whitespace, hash or plus, and every
topic longer than 128 code points, is rejected at construction; every
accepted topic is stored stripped of surrounding whitespace. -/
theorem c5_topic_validation (topic alias_ room payload : String) :
    ((topic.data.any (fun c => c = '\x00' || isPythonSpace c || c = '#' || c = '+') ||
        decide (topic.length > 128)) = true →
      (ClimateSkillDevice.make topic alias_ room payload).isOk = false) ∧
    (∀ d, ClimateSkillDevice.make topic alias_ room payload = Except.ok d →
      d.topic = pyStrip topic) := by
  constructor
  · intro h
    have hbad : topic.data.any isInvalidTopicChar = true ∨ topic.length > 128 := by
      rw [Bool.or_eq_true] at h
      rcases h with hA | hB
      · left
        rcases List.any_eq_true.mp hA with ⟨c, hc, hcp⟩
        refine List.any_eq_true.mpr ⟨c, hc, ?_⟩
        simp only [Bool.or_eq_true, decide_eq_true_eq] at hcp
        rcases hcp with ((h0 | hs) | h3) | h4
        · subst h0; decide
        · simp [isInvalidTopicChar, hs]
        · subst h3; decide
        · subst h4; decide
      · right
        exact of_decide_eq_true hB
    unfold ClimateSkillDevice.make validate_topic
    rcases hbad with hA | hB
    · simp [hA, Except.isOk, Except.toBool]
    · by_cases hA2 : topic.data.any isInvalidTopicChar = true
      · simp [hA2, Except.isOk, Except.toBool]
      · simp [hA2, hB, MAX_TOPIC_LENGTH, Except.isOk, Except.toBool]
  · intro d hd
    unfold ClimateSkillDevice.make validate_topic at hd
    by_cases h1 : topic.data.any isInvalidTopicChar = true
    · simp [h1] at hd
    · by_cases h2 : topic.length > MAX_TOPIC_LENGTH
      · simp [h1, h2] at hd
      · simp [h1, h2] at hd
        rw [← hd]

/-- Witness for C5: a wildcard-bearing topic is rejected and a clean topic
is stored equal to its stripped input. -/
theorem c5_topic_validation_witness :
    (ClimateSkillDevice.make "home/automation#" "a" "r" "p").isOk = false ∧
    ({ topic := "devices/kitchen", alias_ := "a", room := "r",
       payload_set_template := "p" } : ClimateSkillDevice).topic = pyStrip "devices/kitchen" :=
  ⟨(c5_topic_validation "home/automation#" "a" "r" "p").1 (by decide),
   (c5_topic_validation "devices/kitchen" "a" "r" "p").2
     { topic := "devices/kitchen", alias_ := "a", room := "r", payload_set_template := "p" }
     (by rfl)⟩

/-- C7: each target device publish is attempted independently — a failure
for one device is caught and logged with topic and error and does not stop
the remaining devices (one publish per target in order, for every failure
oracle) — and an empty target list is a logged no-op. -/
theorem c7_per_device_isolation (ps : Parameters) (pf : String → Option String) :
    (ps.targets = [] → send_mqtt_commands pf IntentType.DEVICE_SET ps =
      [Effect.logWarning "No target devices to send MQTT commands to"]) ∧
    publishes (send_mqtt_commands pf IntentType.DEVICE_SET ps) =
      ps.targets.map (fun d =>
        Effect.publish d.topic (renderPayload d.payload_set_template ps.temperature) 1) ∧
    (∀ d e, d ∈ ps.targets → pf d.topic = some e →
      Effect.logError (publish_failure_msg d.topic e) ∈
        send_mqtt_commands pf IntentType.DEVICE_SET ps) := by
  refine ⟨?_, send_mqtt_publishes pf ps, ?_⟩
  · intro h
    simp [send_mqtt_commands, h]
  · intro d e hd he
    have hne : ps.targets ≠ [] := by
      intro h0
      rw [h0] at hd
      exact (List.not_mem_nil d) hd
    have hE := isEmpty_false_of_ne_nil hne
    simp only [send_mqtt_commands, hE, Bool.false_eq_true, if_false]
    refine List.mem_flatMap.mpr ⟨d, hd, ?_⟩
    simp [per_device_effects, device_set_effects, he]

/-- First target device of the C7 witness (its publish will fail). -/
def c7w_dev1 : ClimateSkillDevice :=
  { topic := "zigbee2mqtt/study/thermostat/one/set", alias_ := "one", room := "study" }

/-- Second target device of the C7 witness (its publish succeeds). -/
def c7w_dev2 : ClimateSkillDevice :=
  { topic := "zigbee2mqtt/study/thermostat/two/set", alias_ := "two", room := "study" }

/-- Two-device parameter set for the C7 witness. -/
def c7w_ps : Parameters :=
  { temperature := 21, targets := [c7w_dev1, c7w_dev2], rooms := ["study"] }

/-- Failure oracle for the C7 witness: the first topic raises. -/
def c7w_oracle : String → Option String :=
  fun t => if t = "zigbee2mqtt/study/thermostat/one/set" then some "boom" else none

/-- Witness for C7: with the first of two devices failing, both publishes
are still attempted, the failure is logged with its topic, and the empty
target list is a logged no-op. -/
theorem c7_per_device_isolation_witness :
    send_mqtt_commands c7w_oracle IntentType.DEVICE_SET { temperature := 21 } =
      [Effect.logWarning "No target devices to send MQTT commands to"] ∧
    publishes (send_mqtt_commands c7w_oracle IntentType.DEVICE_SET c7w_ps) =
      c7w_ps.targets.map (fun d =>
        Effect.publish d.topic (renderPayload d.payload_set_template c7w_ps.temperature) 1) ∧
    Effect.logError (publish_failure_msg c7w_dev1.topic "boom") ∈
      send_mqtt_commands c7w_oracle IntentType.DEVICE_SET c7w_ps :=
  ⟨(c7_per_device_isolation { temperature := 21 } c7w_oracle).1 rfl,
   (c7_per_device_isolation c7w_ps c7w_oracle).2.1,
   (c7_per_device_isolation c7w_ps c7w_oracle).2.2 c7w_dev1 "boom" (by decide) rfl⟩

/-- C8: template loading at construction fails whenever a required
response template (help or set-temperature) is missing, and loads the full
intent-to-template table when both are present. -/
theorem c8_template_loading (env : String → Option String) :
    ((env "help.j2" = none ∨ env "set_temperature.j2" = none) →
      (load_templates env).isOk = false) ∧
    (∀ h s, env "help.j2" = some h → env "set_temperature.j2" = some s →
      load_templates env =
        Except.ok [(IntentType.SYSTEM_HELP, h), (IntentType.DEVICE_SET, s)]) := by
  constructor
  · intro hbad
    rcases hbad with hH | hS
    · cases hSet : env "set_temperature.j2" <;>
        simp [load_templates, template_mappings, hH, hSet, Except.isOk, Except.toBool]
    · cases hHelp : env "help.j2" <;>
        simp [load_templates, template_mappings, hHelp, hS, Except.isOk, Except.toBool]
  · intro h s hH hS
    simp [load_templates, template_mappings, hH, hS]

/-- Template environment with both required templates, for the C8 witness. -/
def c8w_env_full : String → Option String :=
  fun n => if n = "help.j2" then some "HELP" else
           if n = "set_temperature.j2" then some "SET" else none

/-- Template environment missing the set-temperature template, for the C8
witness. -/
def c8w_env_missing : String → Option String :=
  fun n => if n = "help.j2" then some "HELP" else none

/-- Witness for C8: loading fails with the set-temperature template
missing and succeeds with both templates present. -/
theorem c8_template_loading_witness :
    (load_templates c8w_env_missing).isOk = false ∧
    load_templates c8w_env_full =
      Except.ok [(IntentType.SYSTEM_HELP, "HELP"), (IntentType.DEVICE_SET, "SET")] :=
  ⟨(c8_template_loading c8w_env_missing).1 (Or.inr rfl),
   (c8_template_loading c8w_env_full).2 "HELP" "SET" rfl rfl⟩

/-- Thermostat registry record in the study, used for C10. -/
def c10_device : GlobalDevice :=
  { name := "main", room := some { name := "study" },
    device_attributes := some [("topic", "zigbee2mqtt/study/thermostat/main/set")] }

/-- Skill state used for C10: one thermostat in the study. -/
def c10_skill : Skill :=
  { global_devices := [c10_device], intent_to_template := template_mappings,
    renderTemplate := fun _ _ _ => "Temperature set" }

/-- Request used for the C10 counterexample: entities only under the
singular keys "room" and "number", issued from the office (which has no
devices). -/
def c10_request : IntentRequest :=
  { classified_intent :=
      { intent_type := IntentType.DEVICE_SET,
        entities :=
          [("room", [{ raw_text := "study", normalized_value := EntityValue.str "study" }]),
           ("number", [{ raw_text := "21", normalized_value := EntityValue.num 21 }])],
        raw_text := "set temperature to 21 degrees in study" },
    client_request := { room := "office" } }

/-- C10 counterexample: with entities only under singular keys the
resolution indeed ignores them (rooms fall back to the current room and
the setpoint stays 0), but when the current room has no devices the
router answers with the couldn\x27t-find-devices response, not the
please-specify-a-temperature response asserted by the claim. -/
theorem c10_counterexample :
    (find_parameters c10_skill.global_devices IntentType.DEVICE_SET
      c10_request.classified_intent c10_request.client_request.room).rooms = ["office"] ∧
    (find_parameters c10_skill.global_devices IntentType.DEVICE_SET
      c10_request.classified_intent c10_request.client_request.room).temperature = 0 ∧
    process_request c10_skill (fun _ => none) c10_request =
      [Effect.response "I couldn\x27t find any climate devices in that room."] ∧
    Effect.response "Please specify a temperature to set." ∉
      process_request c10_skill (fun _ => none) c10_request := by
  refine ⟨rfl, rfl, rfl, ?_⟩
  decide

/-- C10 (amended): resolution reads only the plural entity keys — with
nothing under "rooms" and "numbers" the target rooms default to the
current room and the setpoint stays 0, nothing is ever dispatched, and the
request is answered with the please-specify-a-temperature response when
the current room has climate devices, or with the couldn\x27t-find-devices
response when it has none. -/
theorem c10_plural_keys_only (skill : Skill) (pf : String → Option String)
    (req : IntentRequest)
    (hIntent : req.classified_intent.intent_type = IntentType.DEVICE_SET)
    (hNoRooms : req.classified_intent.getEntities "rooms" = [])
    (hNoNums : req.classified_intent.getEntities "numbers" = []) :
    (find_parameters skill.global_devices IntentType.DEVICE_SET req.classified_intent
      req.client_request.room).rooms = [req.client_request.room] ∧
    (find_parameters skill.global_devices IntentType.DEVICE_SET req.classified_intent
      req.client_request.room).temperature = 0 ∧
    publishes (process_request skill pf req) = [] ∧
    ((find_parameters skill.global_devices IntentType.DEVICE_SET req.classified_intent
        req.client_request.room).targets ≠ [] →
      process_request skill pf req =
        [Effect.response "Please specify a temperature to set."]) ∧
    ((find_parameters skill.global_devices IntentType.DEVICE_SET req.classified_intent
        req.client_request.room).targets = [] →
      process_request skill pf req =
        [Effect.response "I couldn\x27t find any climate devices in that room."]) := by
  have hRooms : (find_parameters skill.global_devices IntentType.DEVICE_SET
      req.classified_intent req.client_request.room).rooms = [req.client_request.room] := by
    rw [find_parameters_rooms_eq, hNoRooms]
    rfl
  have hTemp := find_parameters_temperature_of_no_numbers skill.global_devices
    req.classified_intent req.client_request.room hNoNums
  have hPlease : (find_parameters skill.global_devices IntentType.DEVICE_SET
      req.classified_intent req.client_request.room).targets ≠ [] →
      process_request skill pf req =
        [Effect.response "Please specify a temperature to set."] := by
    intro h
    have hT := isEmpty_false_of_ne_nil h
    simp [process_request, hIntent, handle_device_set, hT, hTemp]
  have hNone : (find_parameters skill.global_devices IntentType.DEVICE_SET
      req.classified_intent req.client_request.room).targets = [] →
      process_request skill pf req =
        [Effect.response "I couldn\x27t find any climate devices in that room."] := by
    intro h
    have hT : (find_parameters skill.global_devices IntentType.DEVICE_SET
        req.classified_intent req.client_request.room).targets.isEmpty = true := by
      rw [h]
      rfl
    simp [process_request, hIntent, handle_device_set, hT]
  have hPub : publishes (process_request skill pf req) = [] := by
    cases hcase : (find_parameters skill.global_devices IntentType.DEVICE_SET
        req.classified_intent req.client_request.room).targets with
    | nil =>
      rw [hNone hcase]
      rfl
    | cons a l =>
      rw [hPlease (by rw [hcase]; exact List.cons_ne_nil a l)]
      rfl
  exact ⟨hRooms, hTemp, hPub, hPlease, hNone⟩

/-- Request used to witness the amended C10: entities only under singular
keys, issued from the study (which has a device). -/
def c10w_request : IntentRequest :=
  { classified_intent :=
      { intent_type := IntentType.DEVICE_SET,
        entities :=
          [("room", [{ raw_text := "office", normalized_value := EntityValue.str "office" }]),
           ("number", [{ raw_text := "21", normalized_value := EntityValue.num 21 }])],
        raw_text := "set temperature to 21 degrees in office" },
    client_request := { room := "study" } }

/-- Witness for the amended C10 at a concrete singular-key request whose
current room has a device. -/
theorem c10_plural_keys_only_witness :
    (find_parameters c10_skill.global_devices IntentType.DEVICE_SET
      c10w_request.classified_intent c10w_request.client_request.room).rooms = ["study"] ∧
    process_request c10_skill (fun _ => none) c10w_request =
      [Effect.response "Please specify a temperature to set."] :=
  ⟨(c10_plural_keys_only c10_skill (fun _ => none) c10w_request rfl rfl rfl).1,
   (c10_plural_keys_only c10_skill (fun _ => none) c10w_request rfl rfl rfl).2.2.2.1
     (by decide)⟩

end ClimateSkill
